import Mathlib

/-!
Verification of the sheepdog-ng client-side VDI layer (`lib/shared/vdi.c`).

The C file is embedded shallowly.  Every remote call goes through the
transport boundary `sd_run_sdreq`; the transport itself is outside the
embedded file, so it is modelled from the specification as an oracle
`Env : Nat → TransportResp` giving, for the n-th remote call of a run, a
transport-level result together with the nested operation-level response
record (result code, assigned identity, and any data deposited into the
caller's buffer).  Each embedded function threads a world `W` holding the
remote-call counter and a trace of the requests issued so far, so theorems
can speak about which requests an operation sends and in which order.
-/

namespace SheepdogVdi

/-- Modelled from the spec: result code for success (`SD_RES_SUCCESS`),
declared in headers outside the embedded file. -/
def SD_RES_SUCCESS : Nat := 0x00

/-- Modelled from the spec: result code for invalid parameters
(`SD_RES_INVALID_PARMS`), declared in headers outside the embedded file. -/
def SD_RES_INVALID_PARMS : Nat := 0x05

/-- Modelled from the spec: result code for system resource exhaustion
(`SD_RES_SYSTEM_ERROR`), declared in headers outside the embedded file. -/
def SD_RES_SYSTEM_ERROR : Nat := 0x06

/-- Modelled from the spec: result code for a lock conflict
(`SD_RES_VDI_LOCKED`), declared in headers outside the embedded file. -/
def SD_RES_VDI_LOCKED : Nat := 0x07

/-- Modelled from the spec: the distinguished "no such tag" lookup result
(`SD_RES_NO_TAG`), declared in headers outside the embedded file. -/
def SD_RES_NO_TAG : Nat := 0x0e

/-- Modelled from the spec: opcode constants, declared in headers outside
the embedded file; only distinctness matters to the claims. -/
def SD_OP_CREATE_AND_WRITE_OBJ : Nat := 0x01

/-- Modelled from the spec: opcode for reading a remote object. -/
def SD_OP_READ_OBJ : Nat := 0x02

/-- Modelled from the spec: opcode for writing a remote object. -/
def SD_OP_WRITE_OBJ : Nat := 0x03

/-- Modelled from the spec: opcode for creating a new volume. -/
def SD_OP_NEW_VDI : Nat := 0x11

/-- Modelled from the spec: opcode for acquiring the exclusive volume lock. -/
def SD_OP_LOCK_VDI : Nat := 0x12

/-- Modelled from the spec: opcode for releasing the volume lock. -/
def SD_OP_RELEASE_VDI : Nat := 0x13

/-- Modelled from the spec: opcode for the name+tag lookup. -/
def SD_OP_GET_VDI_INFO : Nat := 0x14

/-- Modelled from the spec: request flag marking a write-direction payload. -/
def SD_FLAG_CMD_WRITE : Nat := 0x01

/-- Modelled from the spec: request flag carrying a COW source reference. -/
def SD_FLAG_CMD_COW : Nat := 0x02

/-- Modelled from the spec: request flag for direct header-object access. -/
def SD_FLAG_CMD_DIRECT : Nat := 0x08

/-- Modelled from the spec: the normal lock type (`LOCK_TYPE_NORMAL`). -/
def LOCK_TYPE_NORMAL : Nat := 0x00

/-- Modelled from the spec: fixed maximum length of a volume name. -/
def SD_MAX_VDI_LEN : Nat := 256

/-- Modelled from the spec: fixed maximum length of a volume tag. -/
def SD_MAX_VDI_TAG_LEN : Nat := 256

/-- Modelled from the spec: byte size of a full inode record. -/
def SD_INODE_SIZE : Nat := 4198400

/-- Modelled from the spec: byte size of the inode header portion. -/
def SD_INODE_HEADER_SIZE : Nat := 4096

/-- Modelled from the spec: the legacy size threshold separating the
standard storage policy from the large-volume ("hyper") policy. -/
def SD_OLD_MAX_VDI_SIZE : Nat := 4 * 2 ^ 40

/-- Modelled from the spec: the maximum volume size. -/
def SD_MAX_VDI_SIZE : Nat := 4 * 2 ^ 40 * 1024

/-- Modelled from the spec: byte offset of the tag field inside the inode
record (`offsetof(struct sd_inode, tag)`); the fixed-width name field
precedes it. -/
def inode_tag_offset : Nat := SD_MAX_VDI_LEN

/-- Inode metadata record, restricted to the fields `vdi.c` reads or
writes: human name, tag, numeric identity, declared size, storage policy
and the snapshot mark. -/
structure Inode where
  name : String := ""
  tag : String := ""
  vdi_id : Nat := 0
  vdi_size : Nat := 0
  store_policy : Nat := 0
  snapshot : Bool := false
deriving Repr, DecidableEq, Inhabited

/-- Modelled from the spec: `vdi_is_snapshot` (declared in headers outside
the embedded file) tests the inode's snapshot mark. -/
def vdi_is_snapshot (inode : Inode) : Bool := inode.snapshot

/-- Modelled from the spec: `vid_to_vdi_oid`, the deterministic mapping
from a volume identity to the identity's dedicated header-object
reference. -/
def vid_to_vdi_oid (vid : Nat) : Nat := 2 ^ 63 + vid * 2 ^ 32

/-- Request record (`struct sd_req`): the fields `vdi.c` fills in. -/
structure SdReq where
  opcode : Nat := 0
  flags : Nat := 0
  data_length : Nat := 0
  obj_oid : Nat := 0
  obj_cow_oid : Nat := 0
  obj_offset : Nat := 0
  vdi_base_vdi_id : Nat := 0
  vdi_snapid : Nat := 0
  vdi_vdi_size : Nat := 0
  vdi_store_policy : Nat := 0
  vdi_type : Nat := 0
deriving Repr, DecidableEq, Inhabited

/-- Payload handed to the transport together with a request record. -/
inductive Payload where
  /-- A volume-name string (lock and create requests). -/
  | pname (s : String)
  /-- The fixed-width name plus optional tag buffer of a lookup. -/
  | pnameTag (s : String) (tag : Option String)
  /-- A tag string written into an inode's tag field. -/
  | ptag (s : String)
  /-- An output buffer to be filled by a read. -/
  | pbuf
  /-- A null payload. -/
  | pnone
deriving Repr, DecidableEq

/-- Modelled from the spec: one transport response.  `ret` is the
transport-level result of `sd_run_sdreq`; `result` and `vdi_id` are the
operation-level response fields deposited in the response record; and
`read_inode` is the inode data a read deposits into the caller's buffer. -/
structure TransportResp where
  ret : Nat := 0
  result : Nat := 0
  vdi_id : Nat := 0
  read_inode : Inode := {}
deriving Repr, DecidableEq, Inhabited

/-- Transport oracle: the response to the n-th remote call of a run. -/
def Env : Type := Nat → TransportResp

/-- Observable event of a run: a remote request, or freeing a handle. -/
inductive Event where
  /-- A remote request handed to the transport. -/
  | remote (hdr : SdReq) (payload : Payload)
  /-- The handle's memory is freed (`free_vdi`). -/
  | freeVdi
deriving Repr, DecidableEq

/-- World threaded through a run: the remote-call counter and the trace of
events so far. -/
structure W where
  n : Nat := 0
  tr : List Event := []
deriving Repr, DecidableEq, Inhabited

/-- Modelled from the spec: the transport boundary
`execute(connection, request_record, payload) -> TransportResult`.  It
returns the oracle's response for the current call index and logs the
request. -/
def sd_run_sdreq (env : Env) (hdr : SdReq) (payload : Payload) (w : W) :
    TransportResp × W :=
  (env w.n, ⟨w.n + 1, w.tr ++ [Event.remote hdr payload]⟩)

/-- Volume handle (`struct sd_vdi`): the fields `vdi.c` uses. -/
structure SdVdi where
  name : String := ""
  vid : Nat := 0
  inode : Inode := {}
deriving Repr, DecidableEq, Inhabited

/-- Embeds `lock_vdi`: issues the exclusive-lock request and, on transport
success, stores the cluster-assigned identity on the handle. -/
def lock_vdi (env : Env) (vdi : SdVdi) (w : W) : Nat × SdVdi × W :=
  let hdr : SdReq :=
    { opcode := SD_OP_LOCK_VDI, data_length := SD_MAX_VDI_LEN,
      flags := SD_FLAG_CMD_WRITE }
  let r := sd_run_sdreq env hdr (Payload.pname vdi.name) w
  if r.1.ret ≠ SD_RES_SUCCESS then (r.1.ret, vdi, r.2)
  else (SD_RES_SUCCESS, { vdi with vid := r.1.vdi_id }, r.2)

/-- Embeds `unlock_vdi`: issues the release request for the held
identity. -/
def unlock_vdi (env : Env) (vdi : SdVdi) (w : W) : Nat × W :=
  let hdr : SdReq :=
    { opcode := SD_OP_RELEASE_VDI, vdi_type := LOCK_TYPE_NORMAL,
      vdi_base_vdi_id := vdi.vid }
  let r := sd_run_sdreq env hdr Payload.pnone w
  if r.1.ret ≠ SD_RES_SUCCESS then (r.1.ret, r.2)
  else (SD_RES_SUCCESS, r.2)

/-- Embeds `sd_vdi_open`: allocates a handle, acquires the lock, fetches
the full inode record from the header object, and rejects snapshots.  The
result is the handle on success (with `none` standing for the C null
return), the errno value, and the final world. -/
def sd_vdi_open (env : Env) (name : String) (w : W) :
    Option SdVdi × Nat × W :=
  let vdi : SdVdi := { name := name }
  let rl := lock_vdi env vdi w
  if rl.1 ≠ SD_RES_SUCCESS then
    (none, rl.1, ⟨rl.2.2.n, rl.2.2.tr ++ [Event.freeVdi]⟩)
  else
    let hdr : SdReq :=
      { opcode := SD_OP_READ_OBJ, data_length := SD_INODE_SIZE,
        obj_oid := vid_to_vdi_oid rl.2.1.vid, obj_offset := 0 }
    let rr := sd_run_sdreq env hdr Payload.pbuf rl.2.2
    if rr.1.ret ≠ SD_RES_SUCCESS then
      let ru := unlock_vdi env rl.2.1 rr.2
      (none, rr.1.ret, ⟨ru.2.n, ru.2.tr ++ [Event.freeVdi]⟩)
    else
      let vdi2 : SdVdi := { rl.2.1 with inode := rr.1.read_inode }
      if vdi_is_snapshot vdi2.inode then
        let ru := unlock_vdi env vdi2 rr.2
        (none, SD_RES_INVALID_PARMS, ⟨ru.2.n, ru.2.tr ++ [Event.freeVdi]⟩)
      else
        (some vdi2, SD_RES_SUCCESS, rr.2)

/-- Embeds `sd_vdi_close`: releases the lock; on failure returns the error
without freeing the handle, on success frees the handle and returns 0. -/
def sd_vdi_close (env : Env) (vdi : SdVdi) (w : W) : Nat × W :=
  let ru := unlock_vdi env vdi w
  if ru.1 ≠ SD_RES_SUCCESS then (ru.1, ru.2)
  else (0, ⟨ru.2.n, ru.2.tr ++ [Event.freeVdi]⟩)

/-- Embeds `do_vdi_create`: builds and issues the new-volume request. -/
def do_vdi_create (env : Env) (name : String) (vdi_size : Nat)
    (base_vid : Nat) (wantId : Bool) (snapshot : Bool)
    (store_policy : Nat) (w : W) : Nat × Option Nat × W :=
  let hdr : SdReq :=
    { opcode := SD_OP_NEW_VDI, flags := SD_FLAG_CMD_WRITE,
      data_length := SD_MAX_VDI_LEN,
      vdi_base_vdi_id := base_vid,
      vdi_snapid := if snapshot then 1 else 0,
      vdi_vdi_size := vdi_size,
      vdi_store_policy := store_policy }
  let r := sd_run_sdreq env hdr (Payload.pname name) w
  if r.1.ret ≠ SD_RES_SUCCESS then (r.1.ret, none, r.2)
  else (SD_RES_SUCCESS, if wantId then some r.1.vdi_id else none, r.2)

/-- Embeds `write_object`: builds the write request (create-and-write
variant, COW flag from a nonzero COW reference, direct flag), issues it,
and checks the transport-level result and then the operation-level
result. -/
def write_object (env : Env) (oid : Nat) (cow_oid : Nat) (data : Payload)
    (datalen : Nat) (offset : Nat) (flags : Nat) (create : Bool)
    (direct : Bool) (w : W) : Nat × W :=
  let opcode := if create then SD_OP_CREATE_AND_WRITE_OBJ else SD_OP_WRITE_OBJ
  let flags1 := Nat.lor flags SD_FLAG_CMD_WRITE
  let flags2 := if cow_oid ≠ 0 then Nat.lor flags1 SD_FLAG_CMD_COW else flags1
  let flags3 := if direct then Nat.lor flags2 SD_FLAG_CMD_DIRECT else flags2
  let hdr : SdReq :=
    { opcode := opcode, data_length := datalen, flags := flags3,
      obj_oid := oid, obj_cow_oid := cow_oid, obj_offset := offset }
  let r := sd_run_sdreq env hdr data w
  if r.1.ret ≠ SD_RES_SUCCESS then (r.1.ret, r.2)
  else if r.1.result ≠ SD_RES_SUCCESS then (r.1.result, r.2)
  else (SD_RES_SUCCESS, r.2)

/-- Embeds `read_object`: builds the read request (with the direct flag
when asked), issues it, and checks the transport-level result and then the
operation-level result; returns the inode data deposited in the buffer. -/
def read_object (env : Env) (oid : Nat) (datalen : Nat) (offset : Nat)
    (direct : Bool) (w : W) : Nat × Inode × W :=
  let hdr : SdReq :=
    { opcode := SD_OP_READ_OBJ, data_length := datalen,
      obj_oid := oid, obj_offset := offset,
      flags := if direct then SD_FLAG_CMD_DIRECT else 0 }
  let r := sd_run_sdreq env hdr Payload.pbuf w
  if r.1.ret ≠ SD_RES_SUCCESS then (r.1.ret, r.1.read_inode, r.2)
  else if r.1.result ≠ SD_RES_SUCCESS then (r.1.result, r.1.read_inode, r.2)
  else (SD_RES_SUCCESS, r.1.read_inode, r.2)

/-- Embeds `find_vdi`: issues the name+tag lookup; on transport failure
returns the transport result, otherwise returns the operation-level result
and, when it is success and an identity was asked for, the resolved
identity. -/
def find_vdi (env : Env) (name : String) (tag : Option String)
    (wantVid : Bool) (w : W) : Nat × Option Nat × W :=
  let hdr : SdReq :=
    { opcode := SD_OP_GET_VDI_INFO,
      data_length := SD_MAX_VDI_LEN + SD_MAX_VDI_TAG_LEN,
      flags := SD_FLAG_CMD_WRITE }
  let r := sd_run_sdreq env hdr (Payload.pnameTag name tag) w
  if r.1.ret ≠ SD_RES_SUCCESS then (r.1.ret, none, r.2)
  else if r.1.result = SD_RES_SUCCESS then
    (r.1.result, if wantVid then some r.1.vdi_id else none, r.2)
  else (r.1.result, none, r.2)

/-- Embeds `vdi_read_inode`: resolves the identity by name and optional
tag, then reads the inode record (header only, or in full) from the
identity's header object with direct access. -/
def vdi_read_inode (env : Env) (name : String) (tag : Option String)
    (onlyheader : Bool) (w : W) : Nat × Inode × W :=
  let rf := find_vdi env name tag true w
  if rf.1 ≠ SD_RES_SUCCESS then (rf.1, default, rf.2.2)
  else
    let len := if onlyheader then SD_INODE_HEADER_SIZE else SD_INODE_SIZE
    read_object env (vid_to_vdi_oid (rf.2.1.getD 0)) len 0 true rf.2.2

/-- Embeds `sd_vdi_snapshot`: validates the name and tag, looks up the
pair, and on the no-such-tag result reads the head inode header, rejects
the large-volume policy, writes the tag into the header object, and
creates the new head with the frozen identity as COW base. -/
def sd_vdi_snapshot (env : Env) (name : String) (snap_tag : String)
    (w : W) : Nat × W :=
  if snap_tag = "" then (SD_RES_INVALID_PARMS, w)
  else if name = "" then (SD_RES_INVALID_PARMS, w)
  else
    let rf := find_vdi env name (some snap_tag) false w
    if rf.1 = SD_RES_SUCCESS then (SD_RES_INVALID_PARMS, rf.2.2)
    else if rf.1 = SD_RES_NO_TAG then
      let ri := vdi_read_inode env name none true rf.2.2
      if ri.1 ≠ SD_RES_SUCCESS then (ri.1, ri.2.2)
      else
        let inode := ri.2.1
        if inode.store_policy ≠ 0 then (SD_RES_INVALID_PARMS, ri.2.2)
        else
          let rw := write_object env (vid_to_vdi_oid inode.vdi_id) 0
            (Payload.ptag snap_tag) SD_MAX_VDI_TAG_LEN inode_tag_offset 0
            false false ri.2.2
          if rw.1 ≠ SD_RES_SUCCESS then (rw.1, rw.2)
          else
            let rc := do_vdi_create env inode.name inode.vdi_size
              inode.vdi_id false true 0 rw.2
            (rc.1, rc.2.2)
    else (rf.1, rf.2.2)

/-- Embeds `sd_vdi_create`: validates the size and name, chooses the
storage policy from the legacy size threshold, and issues the create
request with a zero COW base and the snapshot flag unset. -/
def sd_vdi_create (env : Env) (name : String) (size : Nat) (w : W) :
    Nat × W :=
  if size > SD_MAX_VDI_SIZE then (SD_RES_INVALID_PARMS, w)
  else if size = 0 then (SD_RES_INVALID_PARMS, w)
  else if name = "" then (SD_RES_INVALID_PARMS, w)
  else
    let store_policy := if size > SD_OLD_MAX_VDI_SIZE then 1 else 0
    let rc := do_vdi_create env name size 0 false false store_policy w
    (rc.1, rc.2.2)

/-- Embeds `sd_vdi_clone`: validates the destination name, source tag and
source name, resolves the source inode in full, and issues the create
request copying the source's size and storage policy with the source
identity as COW base. -/
def sd_vdi_clone (env : Env) (srcname : String) (srctag : String)
    (dstname : String) (w : W) : Nat × W :=
  if dstname = "" then (SD_RES_INVALID_PARMS, w)
  else if srctag = "" then (SD_RES_INVALID_PARMS, w)
  else if srcname = "" then (SD_RES_INVALID_PARMS, w)
  else
    let ri := vdi_read_inode env srcname (some srctag) false w
    if ri.1 ≠ SD_RES_SUCCESS then (ri.1, ri.2.2)
    else
      let inode := ri.2.1
      let rc := do_vdi_create env dstname inode.vdi_size inode.vdi_id
        false false inode.store_policy ri.2.2
      (rc.1, rc.2.2)

/-- Pending request record (`struct sd_request`): the fields relevant to
the queueing discipline. -/
structure SdRequest where
  efd : Nat := 0
  length : Nat := 0
  offset : Nat := 0
  write : Bool := false
deriving Repr, DecidableEq, Inhabited

/-- Primitive action performed by `queue_request` on the shared queue
state. -/
inductive QAct where
  /-- Takes the queue's reader/writer lock in write (exclusive) mode. -/
  | wrlock
  /-- Appends a request at the tail of the shared request list. -/
  | addTail (r : SdRequest)
  /-- Releases the queue's lock. -/
  | rwUnlock
  /-- Adds `n` units to the shared counting signal (eventfd). -/
  | efdWrite (n : Nat)
deriving Repr, DecidableEq

/-- Embeds `queue_request` as its sequence of primitive actions: lock,
append at the tail, unlock, then notify the counting signal with exactly
one unit. -/
def queue_request (r : SdRequest) : List QAct :=
  [QAct.wrlock, QAct.addTail r, QAct.rwUnlock, QAct.efdWrite 1]

/-- Shared queue state: whether the lock is held, the ordered pending
list, and the counting signal's value. -/
structure QState where
  lockHeld : Bool := false
  request_list : List SdRequest := []
  efd : Nat := 0
deriving Repr, DecidableEq, Inhabited

/-- Modelled from the spec: semantics of one primitive action on the
shared queue.  Mutating the list requires the lock to be held; taking a
held lock or releasing a free one is rejected, so a run that returns a
state certifies the locking discipline. -/
def qstep (s : QState) : QAct → Option QState
  | QAct.wrlock => if s.lockHeld then none else some { s with lockHeld := true }
  | QAct.addTail r =>
      if s.lockHeld then some { s with request_list := s.request_list ++ [r] }
      else none
  | QAct.rwUnlock =>
      if s.lockHeld then some { s with lockHeld := false } else none
  | QAct.efdWrite n => some { s with efd := s.efd + n }

/-- Runs a sequence of primitive actions from a queue state. -/
def qrun (s : QState) : List QAct → Option QState
  | [] => some s
  | a :: rest =>
      match qstep s a with
      | none => none
      | some s2 => qrun s2 rest

/-- Tests whether an action notifies the counting signal. -/
def QAct.isSignal : QAct → Bool
  | QAct.efdWrite _ => true
  | _ => false

/-- Builds a transport oracle from a finite response list, with a default
response past its end. -/
def envOf (rs : List TransportResp) : Env := fun n => rs.getD n {}

/-- C8: every call `sd_vdi_create(c, name, size)` with size 0, size above
the maximum volume size, or an empty (or null) name returns the
invalid-parameters error immediately, with no remote request issued (the
resulting world is the empty one: no event in the trace). -/
theorem create_local_validation (env : Env) (name : String) (size : Nat) :
    (size > SD_MAX_VDI_SIZE →
      sd_vdi_create env name size {} = (SD_RES_INVALID_PARMS, {}))
  ∧ (size = 0 →
      sd_vdi_create env name size {} = (SD_RES_INVALID_PARMS, {}))
  ∧ (name = "" →
      sd_vdi_create env name size {} = (SD_RES_INVALID_PARMS, {})) := by
  refine ⟨fun h => ?_, fun h => ?_, fun h => ?_⟩
  · simp [sd_vdi_create, h]
  · subst h
    simp [sd_vdi_create, SD_MAX_VDI_SIZE]
  · subst h
    unfold sd_vdi_create
    split
    · rfl
    · split
      · rfl
      · simp

theorem create_local_validation_witness :
    sd_vdi_create (envOf []) "" 4096 {} = (SD_RES_INVALID_PARMS, {}) ∧
    sd_vdi_create (envOf []) "v" 0 {} = (SD_RES_INVALID_PARMS, {}) ∧
    sd_vdi_create (envOf []) "v" (SD_MAX_VDI_SIZE + 1) {} =
      (SD_RES_INVALID_PARMS, {}) :=
  ⟨(create_local_validation (envOf []) "" 4096).2.2 rfl,
   (create_local_validation (envOf []) "v" 0).2.1 rfl,
   (create_local_validation (envOf []) "v" (SD_MAX_VDI_SIZE + 1)).1
     (Nat.lt_succ_self _)⟩

/-- C9: every call `sd_vdi_create(c, name, size)` that passes local
validation issues exactly one create request, carrying the large-volume
(hyper) storage policy exactly when the size exceeds the legacy size
threshold and the standard policy otherwise, with a zero COW base identity
and the snapshot flag unset. -/
theorem create_policy_selection (env : Env) (name : String) (size : Nat)
    (h1 : size ≠ 0) (h2 : size ≤ SD_MAX_VDI_SIZE) (h3 : name ≠ "") :
    sd_vdi_create env name size {} =
      (if (env 0).ret ≠ SD_RES_SUCCESS then (env 0).ret else SD_RES_SUCCESS,
       ⟨1, [Event.remote
         { opcode := SD_OP_NEW_VDI, flags := SD_FLAG_CMD_WRITE,
           data_length := SD_MAX_VDI_LEN, vdi_base_vdi_id := 0,
           vdi_snapid := 0, vdi_vdi_size := size,
           vdi_store_policy := if size > SD_OLD_MAX_VDI_SIZE then 1 else 0 }
         (Payload.pname name)]⟩) := by
  have hgt : ¬ size > SD_MAX_VDI_SIZE := not_lt.mpr h2
  simp only [sd_vdi_create, do_vdi_create, sd_run_sdreq, if_neg hgt,
    if_neg h1, if_neg h3]
  by_cases hr : (env 0).ret = SD_RES_SUCCESS <;> simp [hr]

theorem create_policy_selection_witness :
    sd_vdi_create (envOf []) "v" 8 {} =
      (if (envOf [] 0).ret ≠ SD_RES_SUCCESS then (envOf [] 0).ret
       else SD_RES_SUCCESS,
       ⟨1, [Event.remote
         { opcode := SD_OP_NEW_VDI, flags := SD_FLAG_CMD_WRITE,
           data_length := SD_MAX_VDI_LEN, vdi_base_vdi_id := 0,
           vdi_snapid := 0, vdi_vdi_size := 8,
           vdi_store_policy := if 8 > SD_OLD_MAX_VDI_SIZE then 1 else 0 }
         (Payload.pname "v")]⟩) :=
  create_policy_selection (envOf []) "v" 8 (by decide)
    (by norm_num [SD_MAX_VDI_SIZE]) (by decide)

/-- C7: for every request handed to `queue_request`, starting from any
queue state with the lock free, the run of its primitive actions is legal
under the locking discipline (the tail append happens while the lock is
held exclusively, certified by `qrun` returning a state), ends with the
request appended at the tail of the shared list and the counting signal
incremented by exactly one unit, and the action sequence notifies the
signal exactly once, with one unit. -/
theorem queue_request_effect (s : QState) (r : SdRequest)
    (h : s.lockHeld = false) :
    qrun s (queue_request r) =
      some { lockHeld := false, request_list := s.request_list ++ [r],
             efd := s.efd + 1 }
  ∧ (queue_request r).filter QAct.isSignal = [QAct.efdWrite 1] := by
  constructor
  · simp [queue_request, qrun, qstep, h]
  · simp [queue_request, QAct.isSignal]

theorem queue_request_effect_witness :
    qrun {} (queue_request {}) =
      some { lockHeld := false, request_list := [({} : SdRequest)],
             efd := 1 }
  ∧ (queue_request {}).filter QAct.isSignal = [QAct.efdWrite 1] := by
  have h := queue_request_effect {} {} rfl
  simpa using h

/-- C5: `sd_vdi_close` issues the lock release; if the release fails the
error is returned and the trace shows no free of the handle's memory, and
only on successful release is the handle freed and success (0)
returned. -/
theorem close_contract (env : Env) (vdi : SdVdi) :
    ((env 0).ret ≠ SD_RES_SUCCESS →
      sd_vdi_close env vdi {} =
        ((env 0).ret,
         ⟨1, [Event.remote
           { opcode := SD_OP_RELEASE_VDI, vdi_type := LOCK_TYPE_NORMAL,
             vdi_base_vdi_id := vdi.vid } Payload.pnone]⟩))
  ∧ ((env 0).ret = SD_RES_SUCCESS →
      sd_vdi_close env vdi {} =
        (0,
         ⟨1, [Event.remote
           { opcode := SD_OP_RELEASE_VDI, vdi_type := LOCK_TYPE_NORMAL,
             vdi_base_vdi_id := vdi.vid } Payload.pnone,
           Event.freeVdi]⟩)) := by
  constructor <;> intro h <;>
    simp [sd_vdi_close, unlock_vdi, sd_run_sdreq, h]

theorem close_contract_witness :
    sd_vdi_close (envOf [{ ret := SD_RES_VDI_LOCKED }]) { vid := 3 } {} =
      (SD_RES_VDI_LOCKED,
       ⟨1, [Event.remote
         { opcode := SD_OP_RELEASE_VDI, vdi_type := LOCK_TYPE_NORMAL,
           vdi_base_vdi_id := 3 } Payload.pnone]⟩)
  ∧ sd_vdi_close (envOf []) { vid := 3 } {} =
      (0,
       ⟨1, [Event.remote
         { opcode := SD_OP_RELEASE_VDI, vdi_type := LOCK_TYPE_NORMAL,
           vdi_base_vdi_id := 3 } Payload.pnone,
         Event.freeVdi]⟩) :=
  ⟨(close_contract (envOf [{ ret := SD_RES_VDI_LOCKED }]) { vid := 3 }).1
     (by decide),
   (close_contract (envOf []) { vid := 3 }).2 rfl⟩

/-- C3 counterexample: `lock_vdi` is a remote call that, on transport
success, reports success without inspecting the nested operation-level
result code — here the operation-level result is the lock-conflict
failure, yet the call returns success.  This refutes the claim that every
remote call checks the operation-level result before reporting
success. -/
theorem lock_vdi_ignores_op_result :
    (lock_vdi
      (envOf [{ ret := SD_RES_SUCCESS, result := SD_RES_VDI_LOCKED,
                vdi_id := 9 }]) { name := "v" } {}).1 = SD_RES_SUCCESS
  ∧ (envOf [{ ret := SD_RES_SUCCESS, result := SD_RES_VDI_LOCKED,
              vdi_id := 9 }] 0).result ≠ SD_RES_SUCCESS := by
  constructor
  · rfl
  · decide

/-- C3 (amended): `write_object` and `read_object` check the
transport-level result first and, on transport failure, return it
verbatim whatever the operation-level result is; on transport success
they also check the nested operation-level result code before reporting
success (returning exactly that code).  `lock_vdi` checks only the
transport-level result: on transport success it reports success whatever
the operation-level result is. -/
theorem two_stage_result_contract (env : Env) (oid cow_oid datalen offset fl : Nat)
    (data : Payload) (create direct : Bool) (vdi : SdVdi) :
    ((env 0).ret ≠ SD_RES_SUCCESS →
       (write_object env oid cow_oid data datalen offset fl create direct {}).1
           = (env 0).ret
     ∧ (read_object env oid datalen offset direct {}).1 = (env 0).ret
     ∧ (lock_vdi env vdi {}).1 = (env 0).ret)
  ∧ ((env 0).ret = SD_RES_SUCCESS →
       (write_object env oid cow_oid data datalen offset fl create direct {}).1
           = (env 0).result
     ∧ (read_object env oid datalen offset direct {}).1 = (env 0).result
     ∧ (lock_vdi env vdi {}).1 = SD_RES_SUCCESS) := by
  constructor
  · intro h
    refine ⟨?_, ?_, ?_⟩ <;>
      simp [write_object, read_object, lock_vdi, sd_run_sdreq, h]
  · intro h
    refine ⟨?_, ?_, ?_⟩
    · simp only [write_object, sd_run_sdreq, h]
      by_cases hr : (env 0).result = SD_RES_SUCCESS <;> simp [hr]
    · simp only [read_object, sd_run_sdreq, h]
      by_cases hr : (env 0).result = SD_RES_SUCCESS <;> simp [hr]
    · simp [lock_vdi, sd_run_sdreq, h]

theorem two_stage_result_contract_witness :
    (write_object (envOf [{ ret := SD_RES_VDI_LOCKED }]) 5 0 Payload.pbuf
        16 0 0 false false {}).1 = SD_RES_VDI_LOCKED
  ∧ (read_object (envOf [{ ret := SD_RES_VDI_LOCKED }]) 5 16 0 false {}).1
        = SD_RES_VDI_LOCKED
  ∧ (lock_vdi (envOf [{ ret := SD_RES_VDI_LOCKED }]) { name := "v" } {}).1
        = SD_RES_VDI_LOCKED :=
  (two_stage_result_contract (envOf [{ ret := SD_RES_VDI_LOCKED }])
    5 0 16 0 0 Payload.pbuf false false { name := "v" }).1 (by decide)

/-- C6: `sd_vdi_clone` fails with the invalid-parameters error and issues
no remote request when the destination name, source tag or source name is
empty (null collapses to the empty string in the model); otherwise, when
the source lookup and the full inode read succeed, it issues the lookup,
the read, and a create request whose declared size and storage policy
equal the source inode's and whose COW base identity is the source
inode's identity. -/
theorem clone_contract (env : Env) (srcname srctag dstname : String) :
    (dstname = "" →
      sd_vdi_clone env srcname srctag dstname {} = (SD_RES_INVALID_PARMS, {}))
  ∧ (srctag = "" →
      sd_vdi_clone env srcname srctag dstname {} = (SD_RES_INVALID_PARMS, {}))
  ∧ (srcname = "" →
      sd_vdi_clone env srcname srctag dstname {} = (SD_RES_INVALID_PARMS, {}))
  ∧ (dstname ≠ "" → srctag ≠ "" → srcname ≠ "" →
     (env 0).ret = SD_RES_SUCCESS → (env 0).result = SD_RES_SUCCESS →
     (env 1).ret = SD_RES_SUCCESS → (env 1).result = SD_RES_SUCCESS →
      sd_vdi_clone env srcname srctag dstname {} =
        (if (env 2).ret ≠ SD_RES_SUCCESS then (env 2).ret else SD_RES_SUCCESS,
         ⟨3, [Event.remote
            { opcode := SD_OP_GET_VDI_INFO,
              data_length := SD_MAX_VDI_LEN + SD_MAX_VDI_TAG_LEN,
              flags := SD_FLAG_CMD_WRITE }
            (Payload.pnameTag srcname (some srctag)),
          Event.remote
            { opcode := SD_OP_READ_OBJ, data_length := SD_INODE_SIZE,
              obj_oid := vid_to_vdi_oid (env 0).vdi_id,
              flags := SD_FLAG_CMD_DIRECT } Payload.pbuf,
          Event.remote
            { opcode := SD_OP_NEW_VDI, flags := SD_FLAG_CMD_WRITE,
              data_length := SD_MAX_VDI_LEN,
              vdi_base_vdi_id := (env 1).read_inode.vdi_id,
              vdi_snapid := 0,
              vdi_vdi_size := (env 1).read_inode.vdi_size,
              vdi_store_policy := (env 1).read_inode.store_policy }
            (Payload.pname dstname)]⟩)) := by
  refine ⟨fun h => ?_, fun h => ?_, fun h => ?_,
    fun hd ht hs h0r h0 h1r h1 => ?_⟩
  · simp [sd_vdi_clone, h]
  · subst h
    unfold sd_vdi_clone
    split
    · rfl
    · simp
  · subst h
    unfold sd_vdi_clone
    split
    · rfl
    · split
      · rfl
      · simp
  · simp only [sd_vdi_clone, vdi_read_inode, find_vdi, read_object,
      do_vdi_create, sd_run_sdreq, if_neg hd, if_neg ht, if_neg hs]
    by_cases hr : (env 2).ret = SD_RES_SUCCESS <;>
      simp [h0r, h0, h1r, h1, hr]

theorem clone_contract_witness :
    sd_vdi_clone
      (envOf [{ vdi_id := 4 },
              { read_inode := { name := "src", vdi_id := 4,
                                vdi_size := 4096, store_policy := 1 } }])
      "src" "t" "dst" {} =
      (SD_RES_SUCCESS,
       ⟨3, [Event.remote
          { opcode := SD_OP_GET_VDI_INFO,
            data_length := SD_MAX_VDI_LEN + SD_MAX_VDI_TAG_LEN,
            flags := SD_FLAG_CMD_WRITE }
          (Payload.pnameTag "src" (some "t")),
        Event.remote
          { opcode := SD_OP_READ_OBJ, data_length := SD_INODE_SIZE,
            obj_oid := vid_to_vdi_oid 4,
            flags := SD_FLAG_CMD_DIRECT } Payload.pbuf,
        Event.remote
          { opcode := SD_OP_NEW_VDI, flags := SD_FLAG_CMD_WRITE,
            data_length := SD_MAX_VDI_LEN, vdi_base_vdi_id := 4,
            vdi_snapid := 0, vdi_vdi_size := 4096,
            vdi_store_policy := 1 }
          (Payload.pname "dst")]⟩) := by
  have h := (clone_contract
    (envOf [{ vdi_id := 4 },
            { read_inode := { name := "src", vdi_id := 4,
                              vdi_size := 4096, store_policy := 1 } }])
    "src" "t" "dst").2.2.2 (by decide) (by decide) (by decide)
    rfl rfl rfl rfl
  simpa using h

/-- C4: `sd_vdi_open` frees the handle and returns null (with no unlock
issued) when the lock cannot be acquired; releases the lock and frees the
handle before returning null when the inode fetch fails or the fetched
inode is marked as a snapshot; and returns a live handle, with no
release and no free, exactly when lock, fetch and the not-a-snapshot
check all succeed. -/
theorem open_contract (env : Env) (name : String) :
    ((env 0).ret ≠ SD_RES_SUCCESS →
      sd_vdi_open env name {} =
        (none, (env 0).ret,
         ⟨1, [Event.remote
            { opcode := SD_OP_LOCK_VDI, data_length := SD_MAX_VDI_LEN,
              flags := SD_FLAG_CMD_WRITE } (Payload.pname name),
          Event.freeVdi]⟩))
  ∧ ((env 0).ret = SD_RES_SUCCESS → (env 1).ret ≠ SD_RES_SUCCESS →
      sd_vdi_open env name {} =
        (none, (env 1).ret,
         ⟨3, [Event.remote
            { opcode := SD_OP_LOCK_VDI, data_length := SD_MAX_VDI_LEN,
              flags := SD_FLAG_CMD_WRITE } (Payload.pname name),
          Event.remote
            { opcode := SD_OP_READ_OBJ, data_length := SD_INODE_SIZE,
              obj_oid := vid_to_vdi_oid (env 0).vdi_id } Payload.pbuf,
          Event.remote
            { opcode := SD_OP_RELEASE_VDI, vdi_type := LOCK_TYPE_NORMAL,
              vdi_base_vdi_id := (env 0).vdi_id } Payload.pnone,
          Event.freeVdi]⟩))
  ∧ ((env 0).ret = SD_RES_SUCCESS → (env 1).ret = SD_RES_SUCCESS →
     (env 1).read_inode.snapshot = true →
      sd_vdi_open env name {} =
        (none, SD_RES_INVALID_PARMS,
         ⟨3, [Event.remote
            { opcode := SD_OP_LOCK_VDI, data_length := SD_MAX_VDI_LEN,
              flags := SD_FLAG_CMD_WRITE } (Payload.pname name),
          Event.remote
            { opcode := SD_OP_READ_OBJ, data_length := SD_INODE_SIZE,
              obj_oid := vid_to_vdi_oid (env 0).vdi_id } Payload.pbuf,
          Event.remote
            { opcode := SD_OP_RELEASE_VDI, vdi_type := LOCK_TYPE_NORMAL,
              vdi_base_vdi_id := (env 0).vdi_id } Payload.pnone,
          Event.freeVdi]⟩))
  ∧ ((env 0).ret = SD_RES_SUCCESS → (env 1).ret = SD_RES_SUCCESS →
     (env 1).read_inode.snapshot = false →
      sd_vdi_open env name {} =
        (some { name := name, vid := (env 0).vdi_id,
                inode := (env 1).read_inode },
         SD_RES_SUCCESS,
         ⟨2, [Event.remote
            { opcode := SD_OP_LOCK_VDI, data_length := SD_MAX_VDI_LEN,
              flags := SD_FLAG_CMD_WRITE } (Payload.pname name),
          Event.remote
            { opcode := SD_OP_READ_OBJ, data_length := SD_INODE_SIZE,
              obj_oid := vid_to_vdi_oid (env 0).vdi_id } Payload.pbuf]⟩)) := by
  refine ⟨fun h0 => ?_, fun h0 h1 => ?_, fun h0 h1 hs => ?_,
    fun h0 h1 hs => ?_⟩
  · simp [sd_vdi_open, lock_vdi, sd_run_sdreq, h0]
  · by_cases h2 : (env 2).ret = SD_RES_SUCCESS <;>
      simp [sd_vdi_open, lock_vdi, unlock_vdi, sd_run_sdreq, h0, h1, h2]
  · by_cases h2 : (env 2).ret = SD_RES_SUCCESS <;>
      simp [sd_vdi_open, lock_vdi, unlock_vdi, vdi_is_snapshot,
        sd_run_sdreq, h0, h1, hs, h2]
  · simp [sd_vdi_open, lock_vdi, unlock_vdi, vdi_is_snapshot,
      sd_run_sdreq, h0, h1, hs]

theorem open_contract_witness :
    sd_vdi_open (envOf [{ vdi_id := 5 },
                        { read_inode := { snapshot := true } }]) "vol" {} =
      (none, SD_RES_INVALID_PARMS,
       ⟨3, [Event.remote
          { opcode := SD_OP_LOCK_VDI, data_length := SD_MAX_VDI_LEN,
            flags := SD_FLAG_CMD_WRITE } (Payload.pname "vol"),
        Event.remote
          { opcode := SD_OP_READ_OBJ, data_length := SD_INODE_SIZE,
            obj_oid := vid_to_vdi_oid 5 } Payload.pbuf,
        Event.remote
          { opcode := SD_OP_RELEASE_VDI, vdi_type := LOCK_TYPE_NORMAL,
            vdi_base_vdi_id := 5 } Payload.pnone,
        Event.freeVdi]⟩) := by
  have h := (open_contract
    (envOf [{ vdi_id := 5 },
            { read_inode := { snapshot := true } }]) "vol").2.2.1
    rfl rfl rfl
  simpa using h

/-- C2: for `sd_vdi_snapshot` with non-empty name and tag, a successful
(name, tag) lookup fails the call with the invalid-parameters error, and a
lookup failure other than no-such-tag is returned verbatim; in both cases
the trace holds exactly the one lookup request, so no remote write is
performed.  The lookup code is the transport result on transport failure
and the operation-level result otherwise, exactly as `find_vdi` returns
it. -/
theorem snapshot_lookup_failures (env : Env) (name tag : String)
    (hn : name ≠ "") (ht : tag ≠ "") :
    ((env 0).ret = SD_RES_SUCCESS → (env 0).result = SD_RES_SUCCESS →
      sd_vdi_snapshot env name tag {} =
        (SD_RES_INVALID_PARMS,
         ⟨1, [Event.remote
            { opcode := SD_OP_GET_VDI_INFO,
              data_length := SD_MAX_VDI_LEN + SD_MAX_VDI_TAG_LEN,
              flags := SD_FLAG_CMD_WRITE }
            (Payload.pnameTag name (some tag))]⟩))
  ∧ ((env 0).ret = SD_RES_SUCCESS → (env 0).result ≠ SD_RES_SUCCESS →
     (env 0).result ≠ SD_RES_NO_TAG →
      sd_vdi_snapshot env name tag {} =
        ((env 0).result,
         ⟨1, [Event.remote
            { opcode := SD_OP_GET_VDI_INFO,
              data_length := SD_MAX_VDI_LEN + SD_MAX_VDI_TAG_LEN,
              flags := SD_FLAG_CMD_WRITE }
            (Payload.pnameTag name (some tag))]⟩))
  ∧ ((env 0).ret ≠ SD_RES_SUCCESS → (env 0).ret ≠ SD_RES_NO_TAG →
      sd_vdi_snapshot env name tag {} =
        ((env 0).ret,
         ⟨1, [Event.remote
            { opcode := SD_OP_GET_VDI_INFO,
              data_length := SD_MAX_VDI_LEN + SD_MAX_VDI_TAG_LEN,
              flags := SD_FLAG_CMD_WRITE }
            (Payload.pnameTag name (some tag))]⟩)) := by
  have hsne : SD_RES_NO_TAG ≠ SD_RES_SUCCESS := by decide
  refine ⟨fun h0r h0 => ?_, fun h0r h0 h0t => ?_, fun h0r h0t => ?_⟩
  · simp [sd_vdi_snapshot, find_vdi, sd_run_sdreq, hn, ht, h0r, h0]
  · simp [sd_vdi_snapshot, find_vdi, sd_run_sdreq, hn, ht, h0r, h0, h0t]
  · simp [sd_vdi_snapshot, find_vdi, sd_run_sdreq, hn, ht, h0r, h0t]

theorem snapshot_lookup_failures_witness :
    sd_vdi_snapshot (envOf [{}]) "vol" "t" {} =
      (SD_RES_INVALID_PARMS,
       ⟨1, [Event.remote
          { opcode := SD_OP_GET_VDI_INFO,
            data_length := SD_MAX_VDI_LEN + SD_MAX_VDI_TAG_LEN,
            flags := SD_FLAG_CMD_WRITE }
          (Payload.pnameTag "vol" (some "t"))]⟩)
  ∧ sd_vdi_snapshot (envOf [{ result := SD_RES_VDI_LOCKED }]) "vol" "t" {} =
      (SD_RES_VDI_LOCKED,
       ⟨1, [Event.remote
          { opcode := SD_OP_GET_VDI_INFO,
            data_length := SD_MAX_VDI_LEN + SD_MAX_VDI_TAG_LEN,
            flags := SD_FLAG_CMD_WRITE }
          (Payload.pnameTag "vol" (some "t"))]⟩)
  ∧ sd_vdi_snapshot (envOf [{ ret := SD_RES_VDI_LOCKED }]) "vol" "t" {} =
      (SD_RES_VDI_LOCKED,
       ⟨1, [Event.remote
          { opcode := SD_OP_GET_VDI_INFO,
            data_length := SD_MAX_VDI_LEN + SD_MAX_VDI_TAG_LEN,
            flags := SD_FLAG_CMD_WRITE }
          (Payload.pnameTag "vol" (some "t"))]⟩) :=
  ⟨(snapshot_lookup_failures (envOf [{}]) "vol" "t" (by decide)
      (by decide)).1 rfl rfl,
   (snapshot_lookup_failures (envOf [{ result := SD_RES_VDI_LOCKED }])
      "vol" "t" (by decide) (by decide)).2.1 rfl (by decide) (by decide),
   (snapshot_lookup_failures (envOf [{ ret := SD_RES_VDI_LOCKED }])
      "vol" "t" (by decide) (by decide)).2.2 (by decide) (by decide)⟩

/-- C1: for `sd_vdi_snapshot` with non-empty name and tag whose (name,
tag) lookup fails with the no-such-tag result, the run proceeds in order:
it looks up the head identity for the name and reads the current head
inode header; if that inode's storage policy is the large-volume (hyper)
policy it returns the invalid-parameters error with no tag write in the
trace; otherwise it writes the tag into that inode's header object at the
tag field's offset and only then issues the create request for the new
head, whose COW base identity is the frozen inode's identity, with the
frozen inode's size, the snapshot flag set and storage policy 0. -/
theorem snapshot_sequence (env : Env) (name tag : String)
    (hn : name ≠ "") (ht : tag ≠ "")
    (h0r : (env 0).ret = SD_RES_SUCCESS)
    (h0 : (env 0).result = SD_RES_NO_TAG)
    (h1r : (env 1).ret = SD_RES_SUCCESS)
    (h1 : (env 1).result = SD_RES_SUCCESS)
    (h2r : (env 2).ret = SD_RES_SUCCESS)
    (h2 : (env 2).result = SD_RES_SUCCESS) :
    ((env 2).read_inode.store_policy ≠ 0 →
      sd_vdi_snapshot env name tag {} =
        (SD_RES_INVALID_PARMS,
         ⟨3, [Event.remote
            { opcode := SD_OP_GET_VDI_INFO,
              data_length := SD_MAX_VDI_LEN + SD_MAX_VDI_TAG_LEN,
              flags := SD_FLAG_CMD_WRITE }
            (Payload.pnameTag name (some tag)),
          Event.remote
            { opcode := SD_OP_GET_VDI_INFO,
              data_length := SD_MAX_VDI_LEN + SD_MAX_VDI_TAG_LEN,
              flags := SD_FLAG_CMD_WRITE }
            (Payload.pnameTag name none),
          Event.remote
            { opcode := SD_OP_READ_OBJ,
              data_length := SD_INODE_HEADER_SIZE,
              obj_oid := vid_to_vdi_oid (env 1).vdi_id,
              flags := SD_FLAG_CMD_DIRECT } Payload.pbuf]⟩))
  ∧ ((env 2).read_inode.store_policy = 0 →
     (env 3).ret = SD_RES_SUCCESS → (env 3).result = SD_RES_SUCCESS →
      sd_vdi_snapshot env name tag {} =
        (if (env 4).ret ≠ SD_RES_SUCCESS then (env 4).ret
         else SD_RES_SUCCESS,
         ⟨5, [Event.remote
            { opcode := SD_OP_GET_VDI_INFO,
              data_length := SD_MAX_VDI_LEN + SD_MAX_VDI_TAG_LEN,
              flags := SD_FLAG_CMD_WRITE }
            (Payload.pnameTag name (some tag)),
          Event.remote
            { opcode := SD_OP_GET_VDI_INFO,
              data_length := SD_MAX_VDI_LEN + SD_MAX_VDI_TAG_LEN,
              flags := SD_FLAG_CMD_WRITE }
            (Payload.pnameTag name none),
          Event.remote
            { opcode := SD_OP_READ_OBJ,
              data_length := SD_INODE_HEADER_SIZE,
              obj_oid := vid_to_vdi_oid (env 1).vdi_id,
              flags := SD_FLAG_CMD_DIRECT } Payload.pbuf,
          Event.remote
            { opcode := SD_OP_WRITE_OBJ,
              data_length := SD_MAX_VDI_TAG_LEN,
              flags := SD_FLAG_CMD_WRITE,
              obj_oid := vid_to_vdi_oid (env 2).read_inode.vdi_id,
              obj_cow_oid := 0, obj_offset := inode_tag_offset }
            (Payload.ptag tag),
          Event.remote
            { opcode := SD_OP_NEW_VDI, flags := SD_FLAG_CMD_WRITE,
              data_length := SD_MAX_VDI_LEN,
              vdi_base_vdi_id := (env 2).read_inode.vdi_id,
              vdi_snapid := 1,
              vdi_vdi_size := (env 2).read_inode.vdi_size,
              vdi_store_policy := 0 }
            (Payload.pname (env 2).read_inode.name)]⟩)) := by
  have hlor : Nat.lor 0 SD_FLAG_CMD_WRITE = SD_FLAG_CMD_WRITE := rfl
  have hnt : ¬ SD_RES_NO_TAG = SD_RES_SUCCESS := by decide
  constructor
  · intro hp
    simp [sd_vdi_snapshot, find_vdi, vdi_read_inode, read_object,
      sd_run_sdreq, hn, ht, h0r, h0, h1r, h1, h2r, h2, hp, hnt]
  · intro hp h3r h3
    simp only [sd_vdi_snapshot, find_vdi, vdi_read_inode, read_object,
      write_object, do_vdi_create, sd_run_sdreq, if_neg ht, if_neg hn]
    by_cases h4 : (env 4).ret = SD_RES_SUCCESS <;>
      simp [h0r, h0, h1r, h1, h2r, h2, hp, h3r, h3, h4, hlor, hnt]

theorem snapshot_sequence_witness :
    sd_vdi_snapshot
      (envOf [{ result := SD_RES_NO_TAG }, { vdi_id := 7 },
              { read_inode := { name := "stored", vdi_id := 7,
                                vdi_size := 4096 } }, {}, {}])
      "vol" "t" {} =
      (SD_RES_SUCCESS,
       ⟨5, [Event.remote
          { opcode := SD_OP_GET_VDI_INFO,
            data_length := SD_MAX_VDI_LEN + SD_MAX_VDI_TAG_LEN,
            flags := SD_FLAG_CMD_WRITE }
          (Payload.pnameTag "vol" (some "t")),
        Event.remote
          { opcode := SD_OP_GET_VDI_INFO,
            data_length := SD_MAX_VDI_LEN + SD_MAX_VDI_TAG_LEN,
            flags := SD_FLAG_CMD_WRITE }
          (Payload.pnameTag "vol" none),
        Event.remote
          { opcode := SD_OP_READ_OBJ,
            data_length := SD_INODE_HEADER_SIZE,
            obj_oid := vid_to_vdi_oid 7,
            flags := SD_FLAG_CMD_DIRECT } Payload.pbuf,
        Event.remote
          { opcode := SD_OP_WRITE_OBJ,
            data_length := SD_MAX_VDI_TAG_LEN,
            flags := SD_FLAG_CMD_WRITE,
            obj_oid := vid_to_vdi_oid 7,
            obj_cow_oid := 0, obj_offset := inode_tag_offset }
          (Payload.ptag "t"),
        Event.remote
          { opcode := SD_OP_NEW_VDI, flags := SD_FLAG_CMD_WRITE,
            data_length := SD_MAX_VDI_LEN,
            vdi_base_vdi_id := 7, vdi_snapid := 1,
            vdi_vdi_size := 4096, vdi_store_policy := 0 }
          (Payload.pname "stored")]⟩) := by
  have h := (snapshot_sequence
    (envOf [{ result := SD_RES_NO_TAG }, { vdi_id := 7 },
            { read_inode := { name := "stored", vdi_id := 7,
                              vdi_size := 4096 } }, {}, {}])
    "vol" "t" (by decide) (by decide) rfl rfl rfl rfl rfl rfl).2
    rfl rfl rfl
  simpa using h

/-- C10: when `sd_vdi_snapshot` reaches the new-head creation step, the
name carried by the create request is the name field read back from the
frozen inode's header object, not the caller-supplied name argument: the
last request of the trace is the create request with payload
`pname` of the read-back inode name. -/
theorem snapshot_create_uses_stored_name (env : Env) (name tag : String)
    (hn : name ≠ "") (ht : tag ≠ "")
    (h0r : (env 0).ret = SD_RES_SUCCESS)
    (h0 : (env 0).result = SD_RES_NO_TAG)
    (h1r : (env 1).ret = SD_RES_SUCCESS)
    (h1 : (env 1).result = SD_RES_SUCCESS)
    (h2r : (env 2).ret = SD_RES_SUCCESS)
    (h2 : (env 2).result = SD_RES_SUCCESS)
    (hp : (env 2).read_inode.store_policy = 0)
    (h3r : (env 3).ret = SD_RES_SUCCESS)
    (h3 : (env 3).result = SD_RES_SUCCESS) :
    (sd_vdi_snapshot env name tag {}).2.tr.getLast? =
      some (Event.remote
        { opcode := SD_OP_NEW_VDI, flags := SD_FLAG_CMD_WRITE,
          data_length := SD_MAX_VDI_LEN,
          vdi_base_vdi_id := (env 2).read_inode.vdi_id,
          vdi_snapid := 1,
          vdi_vdi_size := (env 2).read_inode.vdi_size,
          vdi_store_policy := 0 }
        (Payload.pname (env 2).read_inode.name)) := by
  have hlor : Nat.lor 0 SD_FLAG_CMD_WRITE = SD_FLAG_CMD_WRITE := rfl
  have hnt : ¬ SD_RES_NO_TAG = SD_RES_SUCCESS := by decide
  simp only [sd_vdi_snapshot, find_vdi, vdi_read_inode, read_object,
    write_object, do_vdi_create, sd_run_sdreq, if_neg ht, if_neg hn]
  by_cases h4 : (env 4).ret = SD_RES_SUCCESS <;>
    simp [h0r, h0, h1r, h1, h2r, h2, hp, h3r, h3, h4, hlor, hnt]

theorem snapshot_create_uses_stored_name_witness :
    "stored" ≠ "vol"
  ∧ (sd_vdi_snapshot
      (envOf [{ result := SD_RES_NO_TAG }, { vdi_id := 7 },
              { read_inode := { name := "stored", vdi_id := 7,
                                vdi_size := 4096 } }, {}, {}])
      "vol" "t" {}).2.tr.getLast? =
      some (Event.remote
        { opcode := SD_OP_NEW_VDI, flags := SD_FLAG_CMD_WRITE,
          data_length := SD_MAX_VDI_LEN,
          vdi_base_vdi_id := 7, vdi_snapid := 1,
          vdi_vdi_size := 4096, vdi_store_policy := 0 }
        (Payload.pname "stored")) := by
  constructor
  · decide
  · have h := snapshot_create_uses_stored_name
      (envOf [{ result := SD_RES_NO_TAG }, { vdi_id := 7 },
              { read_inode := { name := "stored", vdi_id := 7,
                                vdi_size := 4096 } }, {}, {}])
      "vol" "t" (by decide) (by decide) rfl rfl rfl rfl rfl rfl rfl
      rfl rfl
    simpa using h

end SheepdogVdi
